import Mathlib

/-!
Verification development for the mcping-mcp MCP server.

This file gives a shallow embedding, in Lean, of the protocol core of the
repository: the Zod input validation (`src/server/types/schemas.ts`), the
`send-notification` tool handler (`handleNotification`), the `echo` tool
handler (`handleEcho`), the dynamic `ToolRegistry` with its change events,
the Node-`EventEmitter`-style synchronous dispatch, the `ResourceProvider`,
and the request router of `McpServer.setupHandlers`.  Pure data is embedded
directly; effectful pieces (the external notifier callback, `Date.now()`,
`Math.random()`, the WHATWG URL check, the welcome-file read) are passed in
explicitly through environment records, so every definition is executable.
-/

namespace MCPing

/-- A JSON-like value, the space of tool arguments and results.  Numbers are
modelled as integers (the only numeric field, `timeout`, is checked with
`z.number().int()`; non-integral inputs are not exercised by any property
proved here). -/
inductive JValue where
  | jnull
  | jbool (b : Bool)
  | jnum (n : Int)
  | jstr (s : String)
  | jarr (xs : List JValue)
  | jobj (fields : List (String × JValue))
deriving Repr

/-- JS `typeof`-style name of a value, used in Zod `invalid_type` messages. -/
def typeName : JValue → String
  | JValue.jnull => "null"
  | JValue.jbool _ => "boolean"
  | JValue.jnum _ => "number"
  | JValue.jstr _ => "string"
  | JValue.jarr _ => "array"
  | JValue.jobj _ => "object"

/-- Property lookup on a JS object (first binding wins; concrete inputs have
unique keys). -/
def lookupField : List (String × JValue) → String → Option JValue
  | [], _ => none
  | (k, v) :: rest, key => if k = key then some v else lookupField rest key

/-- Whether `needle` is an initial segment of `hay` (char-list level, so that
kernel evaluation is cheap). -/
def headMatches : List Char → List Char → Bool
  | _, [] => true
  | [], _ :: _ => false
  | a :: as, b :: bs => if a = b then headMatches as bs else false

/-- Substring occurrence on char lists, JS `String.prototype.includes`. -/
def occursIn : List Char → List Char → Bool
  | [], needle => needle.isEmpty
  | a :: t, needle => headMatches (a :: t) needle || occursIn t needle

/-- JS `s.includes(sub)`. -/
def strContains (s sub : String) : Bool :=
  occursIn s.toList sub.toList

/-- Split `hay` around the first occurrence of `needle`:
`some (before, after)` or `none` when absent. -/
def splitAtFirst : List Char → List Char → Option (List Char × List Char)
  | hay, needle =>
    match hay with
    | [] => if needle.isEmpty then some ([], []) else none
    | c :: t =>
      if headMatches (c :: t) needle then some ([], (c :: t).drop needle.length)
      else
        match splitAtFirst t needle with
        | some (b, a) => some (c :: b, a)
        | none => none

/-- JS `s.replace(pat, repl)` with a string pattern: first occurrence only. -/
def replaceFirst (s pat repl : String) : String :=
  match splitAtFirst s.toList pat.toList with
  | some (b, a) => String.mk b ++ repl ++ String.mk a
  | none => s

/-- JS `field.charAt(0).toUpperCase() + field.slice(1)`. -/
def capitalizeFirst (s : String) : String :=
  match s.toList with
  | [] => ""
  | c :: rest => String.mk (c.toUpper :: rest)

/-- One Zod issue: code, path, message, and the `minimum` carried by
`too_small` issues (the notification handler inspects it). -/
structure ZodIssue where
  code : String
  path : List String
  message : String
  minimum : Option Int := none
deriving Repr, DecidableEq

/-- The built-in macOS sound names accepted by the `sound` union of
`NotificationInputSchema`. -/
def soundNames : List String :=
  ["Basso", "Blow", "Bottle", "Frog", "Funk", "Glass", "Hero", "Morse",
   "Ping", "Pop", "Purr", "Sosumi", "Submarine", "Tink"]

/-- Validation of one required bounded string field, as in
`z.string().min(1, emptyMsg).max(maxLen, bigMsg)`.  Returns the Zod issues for
the field together with the accepted value (a dummy `""` when issues exist;
it is only consumed when the whole parse produces no issue). -/
def vRequiredString (fieldName emptyMsg bigMsg : String) (maxLen : Nat)
    (fs : List (String × JValue)) : List ZodIssue × String :=
  match lookupField fs fieldName with
  | none => ([⟨"invalid_type", [fieldName], "Required", none⟩], "")
  | some (JValue.jstr s) =>
    if s.length < 1 then
      ([⟨"too_small", [fieldName], emptyMsg, some 1⟩], "")
    else if s.length > maxLen then
      ([⟨"too_big", [fieldName], bigMsg, none⟩], "")
    else ([], s)
  | some v =>
    ([⟨"invalid_type", [fieldName], "Expected string, received " ++ typeName v, none⟩], "")

/-- Validation of `subtitle`: `z.string().max(100, ...).optional()`. -/
def vSubtitle (fs : List (String × JValue)) : List ZodIssue × Option String :=
  match lookupField fs "subtitle" with
  | none => ([], none)
  | some (JValue.jstr s) =>
    if s.length > 100 then
      ([⟨"too_big", ["subtitle"], "Subtitle must be 100 characters or less", none⟩], none)
    else ([], some s)
  | some v =>
    ([⟨"invalid_type", ["subtitle"], "Expected string, received " ++ typeName v, none⟩], none)

/-- Validation of `urgency`: `z.enum(['low','normal','critical']).default('normal')`. -/
def vUrgency (fs : List (String × JValue)) : List ZodIssue × String :=
  match lookupField fs "urgency" with
  | none => ([], "normal")
  | some (JValue.jstr s) =>
    if s = "low" || s = "normal" || s = "critical" then ([], s)
    else ([⟨"invalid_enum_value", ["urgency"],
            "Invalid enum value. Expected 'low' | 'normal' | 'critical'", none⟩], "normal")
  | some v =>
    ([⟨"invalid_type", ["urgency"],
       "Expected 'low' | 'normal' | 'critical', received " ++ typeName v, none⟩], "normal")

/-- Validation of `sound`: a union of boolean, built-in sound name, and
absolute path (regex `^/.*$`, abstracted here as "begins with `/`"), with
default `true`. -/
def vSound (fs : List (String × JValue)) : List ZodIssue × JValue :=
  match lookupField fs "sound" with
  | none => ([], JValue.jbool true)
  | some (JValue.jbool b) => ([], JValue.jbool b)
  | some (JValue.jstr s) =>
    if soundNames.contains s || s.startsWith "/" then ([], JValue.jstr s)
    else ([⟨"invalid_union", ["sound"], "Invalid input", none⟩], JValue.jbool true)
  | some _ => ([⟨"invalid_union", ["sound"], "Invalid input", none⟩], JValue.jbool true)

/-- Validation of `timeout`: `z.number().int().min(1).max(60).default(10)`
(numbers are already integral in this model). -/
def vTimeout (fs : List (String × JValue)) : List ZodIssue × Int :=
  match lookupField fs "timeout" with
  | none => ([], 10)
  | some (JValue.jnum n) =>
    if n < 1 then
      ([⟨"too_small", ["timeout"], "Number must be greater than or equal to 1", some 1⟩], 10)
    else if n > 60 then
      ([⟨"too_big", ["timeout"], "Number must be less than or equal to 60", none⟩], 10)
    else ([], n)
  | some v =>
    ([⟨"invalid_type", ["timeout"], "Expected number, received " ++ typeName v, none⟩], 10)

/-- Validation of an optional absolute-path string field (`icon`,
`contentImage`): `z.string().regex(/^\/.*$/, msg).optional()`. -/
def vOptPath (fieldName msg : String) (fs : List (String × JValue)) :
    List ZodIssue × Option String :=
  match lookupField fs fieldName with
  | none => ([], none)
  | some (JValue.jstr s) =>
    if s.startsWith "/" then ([], some s)
    else ([⟨"invalid_string", [fieldName], msg, none⟩], none)
  | some v =>
    ([⟨"invalid_type", [fieldName], "Expected string, received " ++ typeName v, none⟩], none)

/-- Validation of `open`: `z.string().url('Open must be a valid URL').optional()`.
The WHATWG URL check performed by Zod is passed in as `isUrl`. -/
def vOpen (isUrl : String → Bool) (fs : List (String × JValue)) :
    List ZodIssue × Option String :=
  match lookupField fs "open" with
  | none => ([], none)
  | some (JValue.jstr s) =>
    if isUrl s then ([], some s)
    else ([⟨"invalid_string", ["open"], "Open must be a valid URL", none⟩], none)
  | some v =>
    ([⟨"invalid_type", ["open"], "Expected string, received " ++ typeName v, none⟩], none)

/-- The fully validated notification input, defaults applied
(`NotificationInput` in `schemas.ts`).  The JS `open` key is spelled
`openUrl` (`open` is a Lean keyword). -/
structure NotificationInput where
  title : String
  message : String
  subtitle : Option String
  urgency : String
  sound : JValue
  timeout : Int
  icon : Option String
  contentImage : Option String
  openUrl : Option String
deriving Repr

/-- `NotificationInputSchema.parse`: fields are checked in declaration order
(title, message, subtitle, urgency, sound, timeout, icon, contentImage,
open); all issues are collected, and the parse succeeds exactly when no
issue was produced. -/
def parseNotificationInput (isUrl : String → Bool) (v : JValue) :
    Except (List ZodIssue) NotificationInput :=
  match v with
  | JValue.jobj fs =>
    let rt := vRequiredString "title" "Title cannot be empty"
      "Title must be 100 characters or less" 100 fs
    let rm := vRequiredString "message" "Message cannot be empty"
      "Message must be 500 characters or less" 500 fs
    let rs := vSubtitle fs
    let ru := vUrgency fs
    let rsd := vSound fs
    let rto := vTimeout fs
    let ri := vOptPath "icon" "Icon must be an absolute path" fs
    let rc := vOptPath "contentImage" "Content image must be an absolute path" fs
    let ro := vOpen isUrl fs
    let issues := rt.1 ++ rm.1 ++ rs.1 ++ ru.1 ++ rsd.1 ++ rto.1 ++ ri.1 ++ rc.1 ++ ro.1
    if issues.isEmpty then
      Except.ok ⟨rt.2, rm.2, rs.2, ru.2, rsd.2, rto.2, ri.2, rc.2, ro.2⟩
    else Except.error issues
  | other =>
    Except.error [⟨"invalid_type", [], "Expected object, received " ++ typeName other, none⟩]

/-- `EchoInputSchema.parse` (`z.object({ text: z.string().min(1, 'Text cannot
be empty') })`), returning the accepted `text`. -/
def parseEchoInput (v : JValue) : Except (List ZodIssue) String :=
  match v with
  | JValue.jobj fs =>
    match lookupField fs "text" with
    | none => Except.error [⟨"invalid_type", ["text"], "Required", none⟩]
    | some (JValue.jstr s) =>
      if s.length < 1 then
        Except.error [⟨"too_small", ["text"], "Text cannot be empty", some 1⟩]
      else Except.ok s
    | some w =>
      Except.error [⟨"invalid_type", ["text"], "Expected string, received " ++ typeName w, none⟩]
  | other =>
    Except.error [⟨"invalid_type", [], "Expected object, received " ++ typeName other, none⟩]

/-- Observable behaviour of the external notifier (`notifier.notify`'s single
callback): it fires at time `t` milliseconds with an error or with success,
or it never fires. -/
inductive NotifierBehavior where
  | fires (t : Nat) (err : Option String)
  | never
deriving Repr

/-- Environment of one `handleNotification` call: the sampled clock
(`Date.now()`), the random id suffix (`Math.random().toString(36).slice(2, 11)`),
the notifier's behaviour, and Zod's WHATWG URL validity check. -/
structure NotifEnv where
  now : Nat
  randSuffix : String
  notifier : NotifierBehavior
  isUrl : String → Bool

/-- Outcome of `Promise.race` between the notifier callback and the fixed
3000 ms timer that resolves to success: the callback's rejection wins only
when it fires strictly before the timer; in every other case the race
resolves successfully. -/
def raceNotifier : NotifierBehavior → Except String Unit
  | NotifierBehavior.fires _ none => Except.ok ()
  | NotifierBehavior.fires t (some e) => if t < 3000 then Except.error e else Except.ok ()
  | NotifierBehavior.never => Except.ok ()

/-- The generated notification id,
`notification-Date.now()-Math.random().toString(36).slice(2, 11)`. -/
def mkNotificationId (env : NotifEnv) : String :=
  "notification-" ++ toString env.now ++ "-" ++ env.randSuffix

/-- User-facing message for a Zod validation failure, as formatted by the
`z.ZodError` branch of `handleNotification`'s catch block: the first issue
wins; `too_small` with minimum 1 becomes "&lt;Field&gt; is required and cannot be
empty"; `too_big` keeps its message with the first "String" replaced by
"Text"; anything else keeps its message. -/
def formatZodIssues (issues : List ZodIssue) : String :=
  match issues with
  | [] => "Failed to send notification"
  | e :: _ =>
    let field := String.intercalate "." e.path
    if e.code = "too_small" && e.minimum = some 1 then
      capitalizeFirst field ++ " is required and cannot be empty"
    else if e.code = "too_big" then
      replaceFirst e.message "String" "Text"
    else e.message

/-- Classification of an `Error` rejected by the notifier callback into a
user-facing message (the `error instanceof Error` branch of the catch
block). -/
def classifyNotifierError (msg : String) : String :=
  if strContains msg "Permission denied" || strContains msg "authorization" then
    "Notification permission denied. Please allow notifications in System Preferences > Notifications > Terminal (or your app)"
  else if strContains msg "timeout" then
    "Notification timeout - the notification system may be busy. Please try again"
  else if strContains msg "not available" || strContains msg "NotificationCenter" then
    "macOS Notification Center is not available. Please check that you are running on macOS"
  else if strContains msg "rate limit" || strContains msg "too many" then
    "Too many notifications sent recently. Please wait a moment before sending more"
  else
    "Notification error: " ++ msg

/-- `NotificationOutput` of `schemas.ts`: `success` and `timestamp` required,
`notificationId` and `error` optional. -/
structure NotificationOutput where
  success : Bool
  notificationId : Option String
  error : Option String
  timestamp : Nat
deriving Repr, DecidableEq

/-- `handleNotification` of the `send-notification` tool: validate with
`NotificationInputSchema`, send through the notifier raced against the 3 s
timer, and on any caught failure return a `success:false` output with a
formatted message (the function never throws).  The second component records
whether `notifier.notify` was invoked, which happens exactly when validation
succeeded. -/
def handleNotification (env : NotifEnv) (input : JValue) : NotificationOutput × Bool :=
  match parseNotificationInput env.isUrl input with
  | Except.error issues =>
    ({ success := false, notificationId := none,
       error := some (formatZodIssues issues), timestamp := env.now }, false)
  | Except.ok _ =>
    match raceNotifier env.notifier with
    | Except.ok _ =>
      ({ success := true, notificationId := some (mkNotificationId env),
         error := none, timestamp := env.now }, true)
    | Except.error m =>
      ({ success := false, notificationId := none,
         error := some (classifyNotifierError m), timestamp := env.now }, true)

/-- Result of one tool handler as seen by the router: a returned JSON value
or a thrown exception rendered as a message. -/
inductive ToolResult where
  | ok (v : JValue)
  | thrown (msg : String)
deriving Repr

/-- Rendering of a thrown `ZodError` when it is interpolated into a string;
the exact JS rendering is abstracted as the joined issue messages. -/
def renderZodIssues (issues : List ZodIssue) : String :=
  String.intercalate "; " (issues.map (fun i => i.message))

/-- `handleEcho`: parse with `EchoInputSchema` (throwing a `ZodError` on
failure) and return `{ echo: text }`. -/
def handleEcho (v : JValue) : Except (List ZodIssue) JValue :=
  match parseEchoInput v with
  | Except.ok t => Except.ok (JValue.jobj [("echo", JValue.jstr t)])
  | Except.error issues => Except.error issues

/-- The serialized shape of a `NotificationOutput` as the JS object literal
built by `handleNotification` (optional keys present only when set). -/
def outputToJValue (o : NotificationOutput) : JValue :=
  JValue.jobj
    ([("success", JValue.jbool o.success)]
      ++ (match o.notificationId with
          | some i => [("notificationId", JValue.jstr i)]
          | none => [])
      ++ (match o.error with
          | some e => [("error", JValue.jstr e)]
          | none => [])
      ++ [("timestamp", JValue.jnum (Int.ofNat o.timestamp))])

/-- The three change kinds of `ToolChangeEvent.type`. -/
inductive ChangeType where
  | tool_added
  | tool_updated
  | tool_removed
deriving Repr, DecidableEq

/-- The optional metadata of a `ToolChangeEvent` (the `inputSchema` copy the
code also stores is not modelled; no property here reads it). -/
structure ToolMeta where
  description : Option String
  reason : Option String
deriving Repr, DecidableEq

/-- A `ToolChangeEvent` as published on the `toolChange` channel. -/
structure ToolChangeEvent where
  type : ChangeType
  toolName : String
  timestamp : Nat
  metadata : ToolMeta
deriving Repr, DecidableEq

/-- A `RegistryTool`: an MCP tool plus its handler.  The handler receives the
notification environment (for the one effectful built-in tool) and the JSON
arguments. -/
structure RegistryTool where
  name : String
  description : String
  handler : NotifEnv → JValue → ToolResult

/-- Registry state: the `Map` of `ToolRegistry`, in insertion order. -/
abbrev RegState := List RegistryTool

/-- `ToolRegistry.get`. -/
def getTool : List RegistryTool → String → Option RegistryTool
  | [], _ => none
  | t :: ts, n => if t.name = n then some t else getTool ts n

/-- `Map.set`: replace in place when the key exists, append otherwise. -/
def setTool : List RegistryTool → RegistryTool → List RegistryTool
  | [], t => [t]
  | x :: xs, t => if x.name = t.name then t :: xs else x :: setTool xs t

/-- `Map.delete` of the (unique) entry with the given name. -/
def removeTool : List RegistryTool → String → List RegistryTool
  | [], _ => []
  | t :: ts, n => if t.name = n then ts else t :: removeTool ts n

/-- Outcome of one event listener: normal return or a thrown exception. -/
inductive HRes where
  | ok
  | err (msg : String)
deriving Repr, DecidableEq

/-- A `toolChange` listener.  Listeners in the code are closures that may read
the registry, so the model passes them the registry state current at delivery
time together with the event. -/
abbrev Handler := List RegistryTool → ToolChangeEvent → HRes

/-- Node `EventEmitter.emit` dispatch: listeners are called synchronously in
registration order; a listener that throws aborts the loop and its exception
propagates out of `emit`.  Returns the results of the listeners actually
invoked and the propagated exception, if any. -/
def dispatch : List Handler → List RegistryTool → ToolChangeEvent →
    List HRes × Option String
  | [], _, _ => ([], none)
  | h :: hs, st, ev =>
    match h st ev with
    | HRes.ok =>
      let r := dispatch hs st ev
      (HRes.ok :: r.1, r.2)
    | HRes.err m => ([HRes.err m], some m)

/-- The change record built by `ToolRegistry.register` before emitting. -/
def registerEvent (st : List RegistryTool) (tool : RegistryTool) (now : Nat) :
    ToolChangeEvent :=
  { type := if (getTool st tool.name).isSome then ChangeType.tool_updated
            else ChangeType.tool_added
    toolName := tool.name
    timestamp := now
    metadata :=
      { description := some tool.description
        reason := some (if (getTool st tool.name).isSome then "Tool definition updated"
                        else "New tool registered") } }

/-- State and observations of one `ToolRegistry.register` call delivered
through the global emitter. -/
structure RegisterRun where
  state : List RegistryTool
  events : List ToolChangeEvent
  seen : List RegistryTool
  delivered : List HRes
  thrown : Option String

/-- `ToolRegistry.register`: `this.tools.set(...)` first, then build the
change record and `emit` it; `seen` is the registry state the listeners
observe during delivery (the post-mutation state, since the mutation precedes
the emit). -/
def registerRun (st : List RegistryTool) (hs : List Handler)
    (tool : RegistryTool) (now : Nat) : RegisterRun :=
  let st2 := setTool st tool
  let ev := registerEvent st tool now
  let d := dispatch hs st2 ev
  { state := st2, events := [ev], seen := st2, delivered := d.1, thrown := d.2 }

/-- `ToolRegistry.unregister`: returns the new state, the boolean result, and
the emitted change records. -/
def unregister (st : List RegistryTool) (n : String) (now : Nat) :
    List RegistryTool × Bool × List ToolChangeEvent :=
  match getTool st n with
  | none => (st, false, [])
  | some _ =>
    (removeTool st n, true,
     [{ type := ChangeType.tool_removed, toolName := n, timestamp := now,
        metadata := { description := none, reason := some "Tool unregistered" } }])

/-- `ToolRegistry.clear`: snapshot the names, clear the map, then emit one
removal record per prior entry in insertion order. -/
def clearRegistry (st : List RegistryTool) (now : Nat) :
    List RegistryTool × List ToolChangeEvent :=
  ([],
   st.map (fun t =>
     { type := ChangeType.tool_removed, toolName := t.name, timestamp := now,
       metadata := { description := none, reason := some "Registry cleared" } }))

/-- Environment of the resource layer: whether reading the bundled
`welcome.txt` succeeds. -/
structure ResourceEnv where
  welcomeFileOk : Bool

/-- `APP_CONFIG.appName`. -/
def appName : String := "DingDong Notification Server"

/-- Modelled from the spec: the bundled `welcome.txt` document read by
`getWelcomePrompt` is shipped with the repository but is not present under
`src/`; per the spec it is "a welcome document containing \"Welcome\"". -/
def welcomeTxt : String :=
  "Welcome to the DingDong Notification Server! This server lets you send desktop notifications."

/-- `getWelcomePrompt`: the file content when the read succeeds, otherwise
the fallback greeting built from `APP_CONFIG.appName`. -/
def getWelcomePrompt (env : ResourceEnv) : String :=
  if env.welcomeFileOk then welcomeTxt else "Welcome to the " ++ appName ++ "!"

/-- `ResourceProvider.getResource`: only `prompt://welcome` is known; its
content is resolved lazily and tagged `text/plain`. -/
def getResource (env : ResourceEnv) (uri : String) :
    Option (String × Option String) :=
  if uri = "prompt://welcome" then some (getWelcomePrompt env, some "text/plain")
  else none

/-- The URIs listed by `ResourceProvider.listResources` (`promptResources`). -/
def resourceUris : List String := ["prompt://welcome"]

/-- A decoded request envelope, restricted to the four methods the router
handles. -/
inductive Request where
  | listTools
  | callTool (name : String) (args : Option JValue)
  | listResources
  | readResource (uri : String)

/-- A router response: a returned result or a thrown `Error` (which the MCP
SDK converts into a protocol-level JSON-RPC error). -/
inductive Response where
  | toolContent (result : JValue)
  | resourceContent (uri mimeType text : String)
  | toolList (names : List String)
  | resourceList (uris : List String)
  | protoError (msg : String)

/-- JS `args || {}` on the optional `arguments` member. -/
def orEmptyArgs : Option JValue → JValue
  | none => JValue.jobj []
  | some JValue.jnull => JValue.jobj []
  | some v => v

/-- JS `resource.mimeType || 'text/plain'` (the empty string is falsy). -/
def mimeOrDefault : Option String → String
  | none => "text/plain"
  | some m => if m = "" then "text/plain" else m

/-- The request router of `McpServer.setupHandlers`: look the tool up in the
registry ("Unknown tool" on a miss), run its handler (wrapping a thrown
exception as "Tool execution failed"), and resolve resources against the
provider ("Resource not found" on a miss).  The registry is returned
unchanged on every path: no request handler mutates it. -/
def handleRequest (reg : List RegistryTool) (renv : ResourceEnv)
    (nenv : NotifEnv) : Request → List RegistryTool × Response
  | Request.listTools => (reg, Response.toolList (reg.map (fun t => t.name)))
  | Request.callTool n args =>
    match getTool reg n with
    | none => (reg, Response.protoError ("Unknown tool: " ++ n))
    | some tool =>
      match tool.handler nenv (orEmptyArgs args) with
      | ToolResult.ok v => (reg, Response.toolContent v)
      | ToolResult.thrown m =>
        (reg, Response.protoError ("Tool execution failed: " ++ m))
  | Request.listResources => (reg, Response.resourceList resourceUris)
  | Request.readResource uri =>
    match getResource renv uri with
    | none => (reg, Response.protoError ("Resource not found: " ++ uri))
    | some (content, mt) =>
      (reg, Response.resourceContent uri (mimeOrDefault mt) content)

/-- The `send-notification` handler as registered with the router: the
returned `NotificationOutput` object (never a thrown exception). -/
def notificationHandler (env : NotifEnv) (args : JValue) : ToolResult :=
  ToolResult.ok (outputToJValue (handleNotification env args).1)

/-- The `echo` handler as registered with the router: its `ZodError`
propagates as a thrown exception. -/
def echoHandler (_ : NotifEnv) (args : JValue) : ToolResult :=
  match handleEcho args with
  | Except.ok v => ToolResult.ok v
  | Except.error issues => ToolResult.thrown (renderZodIssues issues)

/-- The registered `send-notification` tool. -/
def notificationTool : RegistryTool :=
  { name := "send-notification"
    description := "Send a desktop notification on macOS with icon, image, and sound customization"
    handler := notificationHandler }

/-- The registered `echo` tool. -/
def echoTool : RegistryTool :=
  { name := "echo"
    description := "Echoes back the provided text"
    handler := echoHandler }

/-- A registry holding the two built-in tools the claims exercise, in the
registration order of `initializeTools`. -/
def demoRegistry : List RegistryTool := [echoTool, notificationTool]

section Helpers

/-- A concrete environment used by witnesses: the notifier callback never
fires, every string passes the URL check. -/
def envA : NotifEnv :=
  { now := 42, randSuffix := "abc", notifier := NotifierBehavior.never,
    isUrl := fun _ => true }

/-- A 101-character title, one over the schema's maximum. -/
def title101 : String := String.mk (List.replicate 101 'a')

/-- A concrete change record used when exercising the dispatcher. -/
def cexEvent : ToolChangeEvent :=
  { type := ChangeType.tool_added, toolName := "t", timestamp := 0,
    metadata := { description := none, reason := none } }

/-- A listener that always throws. -/
def throwingHandler : Handler := fun _ _ => HRes.err "listener boom"

/-- A listener that always returns normally. -/
def okHandler : Handler := fun _ _ => HRes.ok

/-- A trivial registered tool for registry scenarios. -/
def toolA : RegistryTool :=
  { name := "alpha", description := "first version",
    handler := fun _ _ => ToolResult.ok JValue.jnull }

/-- The same name re-registered with a different definition. -/
def toolA2 : RegistryTool :=
  { name := "alpha", description := "second version",
    handler := fun _ _ => ToolResult.ok JValue.jnull }

theorem headMatches_extend (n : List Char) : ∀ (l r : List Char),
    headMatches l n = true → headMatches (l ++ r) n = true := by
  induction n with
  | nil => intro l r _; cases l <;> simp [headMatches]
  | cons b bs ih =>
    intro l r h
    cases l with
    | nil => simp [headMatches] at h
    | cons a as =>
      by_cases hab : a = b
      · simp only [headMatches, if_pos hab] at h ⊢
        exact ih as r h
      · simp only [headMatches, if_neg hab] at h
        exact absurd h (by simp)

theorem occursIn_of_headMatches (hay n : List Char)
    (h : headMatches hay n = true) : occursIn hay n = true := by
  cases hay with
  | nil =>
    cases n with
    | nil => rfl
    | cons b bs => simp [headMatches] at h
  | cons c t => simp [occursIn, h]

/-- When `n` is a prefix of `p`, the concatenation `p ++ m` contains `n`,
whatever `m` is. -/
theorem strContains_of_headStart (p m n : String)
    (h : headMatches p.toList n.toList = true) :
    strContains (p ++ m) n = true := by
  have hd : (p ++ m).toList = p.toList ++ m.toList := by
    cases p; cases m; rfl
  unfold strContains
  rw [hd]
  exact occursIn_of_headMatches _ _ (headMatches_extend _ _ _ h)

theorem getTool_setTool (st : List RegistryTool) (t : RegistryTool) :
    getTool (setTool st t) t.name = some t := by
  induction st with
  | nil => simp [setTool, getTool]
  | cons x xs ih =>
    by_cases h : x.name = t.name
    · simp [setTool, getTool, h]
    · simp [setTool, getTool, h, ih]

theorem getTool_eq_none_iff (st : List RegistryTool) (n : String) :
    getTool st n = none ↔ n ∉ st.map (fun t => t.name) := by
  induction st with
  | nil => simp [getTool]
  | cons t ts ih =>
    by_cases h : t.name = n
    · simp [getTool, h, ih]
    · simp [getTool, h, ih]
      exact fun _ hh => h hh.symm

theorem getTool_removeTool (st : List RegistryTool) (n : String)
    (hnd : (st.map (fun t => t.name)).Nodup) :
    getTool (removeTool st n) n = none := by
  induction st with
  | nil => rfl
  | cons t ts ih =>
    simp only [List.map_cons, List.nodup_cons] at hnd
    by_cases h : t.name = n
    · rw [removeTool, if_pos h]
      exact (getTool_eq_none_iff ts n).mpr (h ▸ hnd.1)
    · rw [removeTool, if_neg h, getTool, if_neg h]
      exact ih hnd.2

theorem dispatch_all_ok (st : List RegistryTool) (ev : ToolChangeEvent) :
    ∀ (hs : List Handler), (∀ g ∈ hs, g st ev = HRes.ok) →
      dispatch hs st ev = (hs.map (fun g => g st ev), none) := by
  intro hs
  induction hs with
  | nil => intro _; rfl
  | cons g gs ih =>
    intro hok
    have hg : g st ev = HRes.ok := hok g (by simp)
    have hrest := ih (fun x hx => hok x (List.mem_cons_of_mem g hx))
    simp [dispatch, hg, hrest]

theorem dispatch_stops_at_err (st : List RegistryTool) (ev : ToolChangeEvent)
    (h : Handler) (hs₂ : List Handler) (m : String) (hth : h st ev = HRes.err m) :
    ∀ (hs₁ : List Handler), (∀ g ∈ hs₁, g st ev = HRes.ok) →
      dispatch (hs₁ ++ h :: hs₂) st ev
        = (hs₁.map (fun g => g st ev) ++ [HRes.err m], some m) := by
  intro hs₁
  induction hs₁ with
  | nil =>
    intro _
    simp [dispatch, hth]
  | cons g gs ih =>
    intro hok
    have hg : g st ev = HRes.ok := hok g (by simp)
    have hrest := ih (fun x hx => hok x (List.mem_cons_of_mem g hx))
    simp [dispatch, hg, hrest]

theorem headMatches_refl (l : List Char) : headMatches l l = true := by
  induction l with
  | nil => rfl
  | cons a as ih => simp [headMatches, ih]

theorem strContains_self (s : String) : strContains s s = true := by
  unfold strContains
  exact occursIn_of_headMatches _ _ (headMatches_refl s.toList)

end Helpers

/-- C1: an invoke of the registered `send-notification` operation whose
arguments fail `NotificationInputSchema` is answered by the router as an
ordinary tool result (`Response.toolContent`, not a thrown protocol error)
whose body is the `success:false` output carrying the field-specific
message, and `notifier.notify` is not invoked on that path (the second
component of `handleNotification` is `false`).  In particular `title=""`
produces "Title is required and cannot be empty" (containing "required and
cannot be empty") and a 101-character title produces "Title must be 100
characters or less" (containing "100 characters or less"). -/
theorem invalid_notification_args_stay_in_result_payload
    (env : NotifEnv) (renv : ResourceEnv) (oargs : Option JValue)
    (issues : List ZodIssue)
    (h : parseNotificationInput env.isUrl (orEmptyArgs oargs) = Except.error issues) :
    handleRequest demoRegistry renv env (Request.callTool "send-notification" oargs)
      = (demoRegistry, Response.toolContent (outputToJValue
          { success := false, notificationId := none,
            error := some (formatZodIssues issues), timestamp := env.now }))
    ∧ (handleNotification env (orEmptyArgs oargs)).2 = false
    ∧ (handleNotification env (JValue.jobj
         [("title", JValue.jstr ""), ("message", JValue.jstr "Test Message")])).1.error
        = some "Title is required and cannot be empty"
    ∧ strContains "Title is required and cannot be empty" "required and cannot be empty" = true
    ∧ (handleNotification env (JValue.jobj
         [("title", JValue.jstr title101), ("message", JValue.jstr "Test Message")])).1.error
        = some "Title must be 100 characters or less"
    ∧ strContains "Title must be 100 characters or less" "100 characters or less" = true := by
  have hh : handleNotification env (orEmptyArgs oargs)
      = ({ success := false, notificationId := none,
           error := some (formatZodIssues issues), timestamp := env.now }, false) := by
    unfold handleNotification
    rw [h]
  refine ⟨?_, ?_, ?_, ?_, ?_, ?_⟩
  · simp only [handleRequest]
    rw [show getTool demoRegistry "send-notification" = some notificationTool from rfl]
    simp only [notificationTool, notificationHandler, hh]
  · rw [hh]
  · rfl
  · rfl
  · rfl
  · rfl

/-- C1 witness: the theorem applied at the empty-title request in a concrete
environment. -/
theorem invalid_notification_args_witness :
    handleRequest demoRegistry { welcomeFileOk := true } envA
        (Request.callTool "send-notification"
          (some (JValue.jobj [("title", JValue.jstr ""), ("message", JValue.jstr "Test Message")])))
      = (demoRegistry, Response.toolContent (outputToJValue
          { success := false, notificationId := none,
            error := some (formatZodIssues
              [⟨"too_small", ["title"], "Title cannot be empty", some 1⟩]),
            timestamp := envA.now }))
    ∧ (handleNotification envA (orEmptyArgs
        (some (JValue.jobj [("title", JValue.jstr ""), ("message", JValue.jstr "Test Message")])))).2 = false
    ∧ (handleNotification envA (JValue.jobj
         [("title", JValue.jstr ""), ("message", JValue.jstr "Test Message")])).1.error
        = some "Title is required and cannot be empty"
    ∧ strContains "Title is required and cannot be empty" "required and cannot be empty" = true
    ∧ (handleNotification envA (JValue.jobj
         [("title", JValue.jstr title101), ("message", JValue.jstr "Test Message")])).1.error
        = some "Title must be 100 characters or less"
    ∧ strContains "Title must be 100 characters or less" "100 characters or less" = true :=
  invalid_notification_args_stay_in_result_payload envA { welcomeFileOk := true }
    (some (JValue.jobj [("title", JValue.jstr ""), ("message", JValue.jstr "Test Message")]))
    [⟨"too_small", ["title"], "Title cannot be empty", some 1⟩] rfl

/-- C2: invoking an operation name absent from the registry makes the router
throw `Unknown tool: <name>` (a structured protocol-level error); the
response is request-scoped — the registry is returned unchanged, and the
server answers instead of terminating. -/
theorem unknown_tool_protocol_error
    (reg : List RegistryTool) (renv : ResourceEnv) (nenv : NotifEnv)
    (n : String) (oargs : Option JValue) (h : getTool reg n = none) :
    handleRequest reg renv nenv (Request.callTool n oargs)
      = (reg, Response.protoError ("Unknown tool: " ++ n))
    ∧ strContains ("Unknown tool: " ++ n) ("Unknown tool: " ++ n) = true := by
  constructor
  · simp only [handleRequest, h]
  · exact strContains_self _

/-- C2 witness: the unknown name `no-such-tool` on the empty registry. -/
theorem unknown_tool_protocol_error_witness :
    handleRequest [] { welcomeFileOk := true } envA (Request.callTool "no-such-tool" none)
      = ([], Response.protoError ("Unknown tool: " ++ "no-such-tool"))
    ∧ strContains ("Unknown tool: " ++ "no-such-tool") ("Unknown tool: " ++ "no-such-tool") = true :=
  unknown_tool_protocol_error [] { welcomeFileOk := true } envA "no-such-tool" none rfl

/-- C3: a handler that throws is caught by the router and converted into a
protocol-level error whose message starts with (hence contains) "Tool
execution failed"; concretely, `echo` with `text:""` (whose handler throws a
`ZodError`) is rejected at protocol level, while `text:"hi"` succeeds with
payload `{echo:"hi"}`. -/
theorem handler_exception_becomes_protocol_error
    (reg : List RegistryTool) (renv : ResourceEnv) (nenv : NotifEnv)
    (n : String) (oargs : Option JValue) (tool : RegistryTool) (m : String)
    (hg : getTool reg n = some tool)
    (hh : tool.handler nenv (orEmptyArgs oargs) = ToolResult.thrown m) :
    handleRequest reg renv nenv (Request.callTool n oargs)
      = (reg, Response.protoError ("Tool execution failed: " ++ m))
    ∧ strContains ("Tool execution failed: " ++ m) "Tool execution failed" = true
    ∧ handleRequest demoRegistry renv nenv
        (Request.callTool "echo" (some (JValue.jobj [("text", JValue.jstr "")])))
      = (demoRegistry, Response.protoError ("Tool execution failed: "
          ++ renderZodIssues [⟨"too_small", ["text"], "Text cannot be empty", some 1⟩]))
    ∧ handleRequest demoRegistry renv nenv
        (Request.callTool "echo" (some (JValue.jobj [("text", JValue.jstr "hi")])))
      = (demoRegistry, Response.toolContent (JValue.jobj [("echo", JValue.jstr "hi")])) := by
  refine ⟨?_, ?_, ?_, ?_⟩
  · simp only [handleRequest, hg, hh]
  · exact strContains_of_headStart _ _ _ rfl
  · rfl
  · rfl

/-- C3 witness: the echo tool throwing on empty text in the demo registry. -/
theorem handler_exception_witness :
    handleRequest demoRegistry { welcomeFileOk := true } envA
        (Request.callTool "echo" (some (JValue.jobj [("text", JValue.jstr "")])))
      = (demoRegistry, Response.protoError ("Tool execution failed: "
          ++ renderZodIssues [⟨"too_small", ["text"], "Text cannot be empty", some 1⟩]))
    ∧ strContains ("Tool execution failed: "
          ++ renderZodIssues [⟨"too_small", ["text"], "Text cannot be empty", some 1⟩])
        "Tool execution failed" = true
    ∧ handleRequest demoRegistry { welcomeFileOk := true } envA
        (Request.callTool "echo" (some (JValue.jobj [("text", JValue.jstr "")])))
      = (demoRegistry, Response.protoError ("Tool execution failed: "
          ++ renderZodIssues [⟨"too_small", ["text"], "Text cannot be empty", some 1⟩]))
    ∧ handleRequest demoRegistry { welcomeFileOk := true } envA
        (Request.callTool "echo" (some (JValue.jobj [("text", JValue.jstr "hi")])))
      = (demoRegistry, Response.toolContent (JValue.jobj [("echo", JValue.jstr "hi")])) :=
  handler_exception_becomes_protocol_error demoRegistry { welcomeFileOk := true } envA
    "echo" (some (JValue.jobj [("text", JValue.jstr "")])) echoTool
    (renderZodIssues [⟨"too_small", ["text"], "Text cannot be empty", some 1⟩]) rfl rfl

/-- C4: `register` emits exactly one change record — of kind `tool_updated`
("updated") when an entry with the same name already existed and
`tool_added` ("added") otherwise — and it emits only after the mutation:
the registry state listeners observe during delivery (`seen`) is the
post-mutation state, in which `get` already resolves the new tool. -/
theorem register_emits_one_record_after_mutation
    (st : List RegistryTool) (hs : List Handler) (tool : RegistryTool) (now : Nat) :
    (registerRun st hs tool now).events
      = [{ type := if (getTool st tool.name).isSome then ChangeType.tool_updated
                   else ChangeType.tool_added
           toolName := tool.name
           timestamp := now
           metadata := { description := some tool.description
                         reason := some (if (getTool st tool.name).isSome
                                         then "Tool definition updated"
                                         else "New tool registered") } }]
    ∧ (registerRun st hs tool now).seen = (registerRun st hs tool now).state
    ∧ getTool (registerRun st hs tool now).seen tool.name = some tool := by
  refine ⟨rfl, rfl, ?_⟩
  exact getTool_setTool st tool

/-- C5 counterexample: two listeners are subscribed, the first throws; Node's
`EventEmitter.emit` then invokes only one of the two listeners (delivery to
the second is lost) and the exception propagates out of `emit` into
`ToolRegistry.register` — refuting the claim that a throwing handler does
not prevent delivery to subsequent handlers and does not propagate to the
publisher.  The mutation itself is still applied before the throw. -/
theorem throwing_listener_stops_delivery_counterexample :
    ([throwingHandler, okHandler] : List Handler).length = 2
    ∧ (dispatch [throwingHandler, okHandler] [] cexEvent).1.length = 1
    ∧ (dispatch [throwingHandler, okHandler] [] cexEvent).2 = some "listener boom"
    ∧ (registerRun [] [throwingHandler, okHandler] toolA 0).thrown = some "listener boom"
    ∧ getTool (registerRun [] [throwingHandler, okHandler] toolA 0).state "alpha"
        = some toolA :=
  ⟨rfl, rfl, rfl, rfl, rfl⟩

/-- C5 (amended): delivery is synchronous and in subscriber-registration
order, but only up to and including the first listener that throws: when no
listener throws every subscriber is invoked in order and nothing propagates;
when one throws, exactly the preceding listeners and the throwing one run,
the exception propagates to the publisher, and the registry mutation that
triggered the publish nevertheless remains applied. -/
theorem dispatch_order_and_throw_propagation
    (st : List RegistryTool) (ev : ToolChangeEvent) (hs hs₁ hs₂ : List Handler)
    (h : Handler) (m : String) (tool : RegistryTool) (now : Nat)
    (hok : ∀ g ∈ hs₁, g st ev = HRes.ok) (hth : h st ev = HRes.err m) :
    ((∀ g ∈ hs, g st ev = HRes.ok) →
       dispatch hs st ev = (hs.map (fun g => g st ev), none))
    ∧ dispatch (hs₁ ++ h :: hs₂) st ev
        = (hs₁.map (fun g => g st ev) ++ [HRes.err m], some m)
    ∧ (registerRun st (hs₁ ++ h :: hs₂) tool now).state = setTool st tool :=
  ⟨fun hall => dispatch_all_ok st ev hs hall,
   dispatch_stops_at_err st ev h hs₂ m hth hs₁ hok, rfl⟩

/-- C5 witness: one well-behaved subscriber list, and a throwing listener
ahead of a healthy one. -/
theorem dispatch_order_and_throw_propagation_witness :
    ((∀ g ∈ ([okHandler] : List Handler), g [] cexEvent = HRes.ok) →
       dispatch [okHandler] [] cexEvent
         = (([okHandler] : List Handler).map (fun g => g [] cexEvent), none))
    ∧ dispatch (([] : List Handler) ++ throwingHandler :: [okHandler]) [] cexEvent
        = (([] : List Handler).map (fun g => g [] cexEvent)
            ++ [HRes.err "listener boom"], some "listener boom")
    ∧ (registerRun [] (([] : List Handler) ++ throwingHandler :: [okHandler]) toolA 0).state
        = setTool [] toolA :=
  dispatch_order_and_throw_propagation [] cexEvent [okHandler] [] [okHandler]
    throwingHandler "listener boom" toolA 0
    (fun g hg => absurd hg (List.not_mem_nil g)) rfl

/-- C6 counterexample: the emitted `metadata.reason` strings are
"Tool definition updated", "New tool registered" and "Registry cleared",
none of which equals the claimed "definition updated" /
"new operation registered" / "registry cleared". -/
theorem reason_strings_counterexample :
    (registerRun [toolA] [] toolA2 7).events.map (fun e => e.metadata.reason)
      = [some "Tool definition updated"]
    ∧ (some "Tool definition updated" ≠ (some "definition updated" : Option String))
    ∧ (registerRun [] [] toolA 7).events.map (fun e => e.metadata.reason)
      = [some "New tool registered"]
    ∧ (some "New tool registered" ≠ (some "new operation registered" : Option String))
    ∧ (clearRegistry [toolA] 7).2.map (fun e => e.metadata.reason)
      = [some "Registry cleared"]
    ∧ (some "Registry cleared" ≠ (some "registry cleared" : Option String)) :=
  ⟨rfl, by decide, rfl, by decide, rfl, by decide⟩

/-- C6 (amended): the `metadata.reason` of the record emitted by `register`
is "Tool definition updated" when an entry with the same name existed and
"New tool registered" otherwise, and every record emitted by `clear` carries
reason "Registry cleared". -/
theorem change_record_reasons
    (st : List RegistryTool) (hs : List Handler) (tool : RegistryTool) (now : Nat) :
    (registerRun st hs tool now).events.map (fun e => e.metadata.reason)
      = [some (if (getTool st tool.name).isSome then "Tool definition updated"
               else "New tool registered")]
    ∧ (clearRegistry st now).2.map (fun e => e.metadata.reason)
      = st.map (fun _ => some "Registry cleared") := by
  constructor
  · rfl
  · simp only [clearRegistry, List.map_map]
    rfl

/-- C7: `unregister` returns whether the name was present, emits one
`tool_removed` record exactly when it was (none otherwise, with the state
unchanged), and leaves the name unresolvable afterwards; `clear` on a
registry of N entries emits exactly N records.  The hypothesis is the `Map`
invariant (names are unique), which every reachable registry state
satisfies. -/
theorem unregister_and_clear_records
    (st : List RegistryTool) (n : String) (now : Nat)
    (hnd : (st.map (fun t => t.name)).Nodup) :
    (unregister st n now).2.1 = (getTool st n).isSome
    ∧ (unregister st n now).2.2.length = (if (getTool st n).isSome then 1 else 0)
    ∧ (unregister st n now).2.2.map (fun e => e.type)
        = (if (getTool st n).isSome then [ChangeType.tool_removed] else [])
    ∧ ((getTool st n).isSome = false → (unregister st n now).1 = st)
    ∧ getTool (unregister st n now).1 n = none
    ∧ (clearRegistry st now).2.length = st.length := by
  rcases hg : getTool st n with _ | t
  · refine ⟨?_, ?_, ?_, ?_, ?_, ?_⟩ <;> simp [unregister, hg, clearRegistry]
  · refine ⟨?_, ?_, ?_, ?_, ?_, ?_⟩
    · simp [unregister, hg]
    · simp [unregister, hg]
    · simp [unregister, hg]
    · simp [hg]
    · simp only [unregister, hg]
      exact getTool_removeTool st n hnd
    · simp [clearRegistry]

/-- C7 witness: a one-entry registry, unregistering its only name. -/
theorem unregister_and_clear_records_witness :
    (unregister [toolA] "alpha" 3).2.1 = (getTool [toolA] "alpha").isSome
    ∧ (unregister [toolA] "alpha" 3).2.2.length
        = (if (getTool [toolA] "alpha").isSome then 1 else 0)
    ∧ (unregister [toolA] "alpha" 3).2.2.map (fun e => e.type)
        = (if (getTool [toolA] "alpha").isSome then [ChangeType.tool_removed] else [])
    ∧ ((getTool [toolA] "alpha").isSome = false → (unregister [toolA] "alpha" 3).1 = [toolA])
    ∧ getTool (unregister [toolA] "alpha" 3).1 "alpha" = none
    ∧ (clearRegistry [toolA] 3).2.length = ([toolA] : List RegistryTool).length :=
  unregister_and_clear_records [toolA] "alpha" 3 (by simp)

/-- C8: reading an unknown URI makes the router throw a not-found error;
reading the known welcome document returns its resolved content as textual
content containing "Welcome", with the resource's declared MIME type
(`text/plain`, applying the default when unspecified via `mimeOrDefault`).
The welcome document itself is spec-modelled (`welcomeTxt`): the bundled
file is not under `src/`, and on a failed read the code's fallback greeting
also contains "Welcome". -/
theorem read_resource_router
    (reg : List RegistryTool) (renv : ResourceEnv) (nenv : NotifEnv)
    (uri : String) (h : uri ≠ "prompt://welcome") :
    handleRequest reg renv nenv (Request.readResource uri)
      = (reg, Response.protoError ("Resource not found: " ++ uri))
    ∧ handleRequest reg renv nenv (Request.readResource "prompt://welcome")
      = (reg, Response.resourceContent "prompt://welcome" "text/plain"
          (getWelcomePrompt renv))
    ∧ strContains (getWelcomePrompt renv) "Welcome" = true := by
  refine ⟨?_, ?_, ?_⟩
  · simp [handleRequest, getResource, h]
  · rfl
  · rcases renv with ⟨ok⟩
    cases ok <;> rfl

/-- C8 witness: the unknown URI `prompt://nonexistent` with the welcome file
readable. -/
theorem read_resource_router_witness :
    handleRequest [] { welcomeFileOk := true } envA
        (Request.readResource "prompt://nonexistent")
      = ([], Response.protoError ("Resource not found: " ++ "prompt://nonexistent"))
    ∧ handleRequest [] { welcomeFileOk := true } envA
        (Request.readResource "prompt://welcome")
      = ([], Response.resourceContent "prompt://welcome" "text/plain"
          (getWelcomePrompt { welcomeFileOk := true }))
    ∧ strContains (getWelcomePrompt { welcomeFileOk := true }) "Welcome" = true :=
  read_resource_router [] { welcomeFileOk := true } envA "prompt://nonexistent"
    (by decide)

/-- C9: on a valid input, `handleNotification` races the notifier callback
against the fixed 3000 ms timer.  If the callback has not fired before the
timer (it fires at `t ≥ 3000` or never), the operation resolves with
`success:true` instead of waiting; and a `success:false` outcome can only
come from an error reported by the callback strictly before the timer. -/
theorem notification_race_assumes_success
    (env : NotifEnv) (input : JValue) (v : NotificationInput)
    (hv : parseNotificationInput env.isUrl input = Except.ok v) :
    ((∀ t e, env.notifier = NotifierBehavior.fires t e → 3000 ≤ t) →
       (handleNotification env input).1.success = true)
    ∧ ((handleNotification env input).1.success = false →
        ∃ t e, env.notifier = NotifierBehavior.fires t (some e) ∧ t < 3000) := by
  have hbase : handleNotification env input
      = (match raceNotifier env.notifier with
         | Except.ok _ =>
           ({ success := true, notificationId := some (mkNotificationId env),
              error := none, timestamp := env.now }, true)
         | Except.error m =>
           ({ success := false, notificationId := none,
              error := some (classifyNotifierError m), timestamp := env.now }, true)) := by
    unfold handleNotification
    rw [hv]
  constructor
  · intro hlate
    cases hb : env.notifier with
    | fires t e =>
      cases e with
      | none => rw [hbase, hb]; rfl
      | some err =>
        have hnlt : ¬ t < 3000 := Nat.not_lt.mpr (hlate t (some err) hb)
        rw [hbase, hb]
        simp [raceNotifier, hnlt]
    | never => rw [hbase, hb]; rfl
  · intro hfail
    cases hb : env.notifier with
    | fires t e =>
      cases e with
      | none =>
        rw [hbase, hb] at hfail
        simp [raceNotifier] at hfail
      | some err =>
        by_cases hlt : t < 3000
        · exact ⟨t, err, hb ▸ rfl, hlt⟩
        · rw [hbase, hb] at hfail
          simp [raceNotifier, hlt] at hfail
    | never =>
      rw [hbase, hb] at hfail
      simp [raceNotifier] at hfail

/-- C9 witness: a valid input with a notifier whose callback never fires. -/
theorem notification_race_witness :
    ((∀ t e, envA.notifier = NotifierBehavior.fires t e → 3000 ≤ t) →
       (handleNotification envA (JValue.jobj
         [("title", JValue.jstr "Hi"), ("message", JValue.jstr "There")])).1.success = true)
    ∧ ((handleNotification envA (JValue.jobj
         [("title", JValue.jstr "Hi"), ("message", JValue.jstr "There")])).1.success = false →
        ∃ t e, envA.notifier = NotifierBehavior.fires t (some e) ∧ t < 3000) :=
  notification_race_assumes_success envA
    (JValue.jobj [("title", JValue.jstr "Hi"), ("message", JValue.jstr "There")])
    { title := "Hi", message := "There", subtitle := none, urgency := "normal",
      sound := JValue.jbool true, timeout := 10, icon := none,
      contentImage := none, openUrl := none } rfl

/-- C10: `handleNotification` is total — for every input value and every
notifier behaviour it returns a `NotificationOutput` (the Lean type already
rules out a throw) whose `timestamp` is the sampled clock, in which a
`notificationId` is present exactly when `success` is `true` and an `error`
message is present exactly when `success` is `false`. -/
theorem handle_notification_total_shape (env : NotifEnv) (input : JValue) :
    (handleNotification env input).1.notificationId.isSome
        = (handleNotification env input).1.success
    ∧ (handleNotification env input).1.error.isSome
        = !(handleNotification env input).1.success
    ∧ (handleNotification env input).1.timestamp = env.now := by
  rcases hp : parseNotificationInput env.isUrl input with issues | v
  · simp [handleNotification, hp]
  · rcases hr : raceNotifier env.notifier with m | u <;>
      simp [handleNotification, hp, hr]

end MCPing
